import Mathlib

/-!
Shallow embedding of the auth session orchestrator of the UPSC Tracker
front-end (src/src/contexts/AuthContext.tsx and the unnamed variants
src/unnamed/part_001 .. part_003).  Backend calls (`supabase.auth.getSession`,
`signInWithPassword`, `signOut`, `profiles.select`) are modelled as explicit
outcome parameters; React `useState` cells become fields of an explicit state
record; `async`/`await` interleavings become small-step event traces.
-/

namespace Upsc

/-- Identity record attached to a session (`session.user` in the source). -/
structure User where
  id : String
deriving Repr, DecidableEq

/-- Opaque authenticated session carrying its user (`Session` of the source). -/
structure Session where
  user : User
deriving Repr, DecidableEq

/-- Row of the `profiles` table (`Database.public.Tables.profiles.Row`). -/
structure Profile where
  id : String
  email : String
  full_name : String
  role : String
deriving Repr, DecidableEq

/-- The aggregate React state of `AuthProvider` in src/src/contexts/AuthContext.tsx
(variant with an `error` field): `user`, `profile`, `session`, `loading`, `error`. -/
structure AuthState where
  user : Option User
  profile : Option Profile
  session : Option Session
  loading : Bool
  error : Option String
deriving Repr, DecidableEq

/-- Initial `useState` values: `user=null, profile=null, session=null,
loading=true, error=null`. -/
def initialAuthState : AuthState :=
  { user := none, profile := none, session := none, loading := true, error := none }

/-- Does `needle` occur as a contiguous sublist of `hay`? -/
def subListAt (needle hay : List Char) : Bool :=
  match hay with
  | [] => needle.isEmpty
  | _ :: t => needle.isPrefixOf hay || subListAt needle t

/-- JavaScript `hay.includes(needle)` on strings. -/
def strIncludes (needle hay : String) : Bool :=
  subListAt needle.toList hay.toList

/-- The network classification used throughout the source:
`msg.includes('Failed to fetch') || msg.includes('network')`. -/
def isNetworkMsg (msg : String) : Bool :=
  strIncludes "Failed to fetch" msg || strIncludes "network" msg

/-- `isAdmin = profile?.role === 'admin'` (AuthContext.tsx line 333 and
part_003 line 266). -/
def isAdmin (profile : Option Profile) : Bool :=
  match profile with
  | some p => p.role == "admin"
  | none => false

/-- `isStudent = profile?.role === 'student'` (AuthContext.tsx line 334 and
part_003 line 267). -/
def isStudent (profile : Option Profile) : Bool :=
  match profile with
  | some p => p.role == "student"
  | none => false

/-- Outcome of the backend point lookup `profiles.select().eq('id', userId).single()`:
a row, an error object carrying a message (code `PGRST116` means not found), or a
thrown exception. -/
inductive LookupResult where
  | found (p : Profile)
  | err (msg : String)
  | thrown
deriving Repr, DecidableEq

/-- Message set by `fetchUserProfile` (AuthContext.tsx line 78) when the lookup
error is network-classified. -/
def netDbMsg : String :=
  "Network Error: Unable to connect to the database. Please check your internet connection and try again."

/-- Message set by the catch branch of `fetchUserProfile` (AuthContext.tsx line 87). -/
def netProfileMsg : String :=
  "Network Error: Unable to fetch user profile. Please try again."

/-- `fetchUserProfile` of AuthContext.tsx lines 65-90 (the variant with an
`error` field): returns the row or null, and as a side effect sets the global
`error` when the failure is network-classified (line 78) or thrown (line 87). -/
def fetchUserProfileA (st : AuthState) (r : LookupResult) : Option Profile × AuthState :=
  match r with
  | LookupResult.found p => (some p, st)
  | LookupResult.err msg =>
    (none, if isNetworkMsg msg then { st with error := some netDbMsg } else st)
  | LookupResult.thrown => (none, { st with error := some netProfileMsg })

/-- `handleAuthStateChange` of AuthContext.tsx lines 177-201: writes session,
user and `error := null` immediately, then resolves the profile when a user is
present (the `lookup` argument is the outcome of that fetch), else clears it. -/
def handleAuthStateChange (st : AuthState) (newSession : Option Session)
    (lookup : LookupResult) : AuthState :=
  let st1 := { st with session := newSession,
                       user := newSession.map (fun s => s.user),
                       error := none }
  match newSession with
  | some _ =>
    let res := fetchUserProfileA st1 lookup
    { res.2 with profile := res.1 }
  | none => { st1 with profile := none }

/-- JavaScript `Map.set` on the profile cache: insert or overwrite. -/
def mapSet (m : List (String × Profile)) (k : String) (v : Profile) :
    List (String × Profile) :=
  (k, v) :: m.filter (fun kv => kv.fst != k)

/-- `fetchUserProfile` of AuthContext.tsx lines 551-586 (the cache variant):
cache hit returns the cached row with no backend call; on a miss the point
lookup runs (third component records that a backend call was made); success
inserts into the cache, any error returns null without caching. -/
def fetchUserProfileCached (cache : List (String × Profile)) (userId : String)
    (r : LookupResult) : Option Profile × List (String × Profile) × Bool :=
  match cache.lookup userId with
  | some p => (some p, cache, false)
  | none =>
    match r with
    | LookupResult.found p => (some p, mapSet cache userId p, true)
    | LookupResult.err _ => (none, cache, true)
    | LookupResult.thrown => (none, cache, true)

/-- Outcome of the backend `supabase.auth.signOut()` call. -/
inductive SignOutResult where
  | ok
  | err (msg : String)
  | thrown
deriving Repr, DecidableEq

/-- The React state of the cache variant of `AuthProvider` (AuthContext.tsx
lines 384-392) restricted to the fields `signOut` touches. -/
structure CacheState where
  user : Option User
  profile : Option Profile
  session : Option Session
  cache : List (String × Profile)
deriving Repr, DecidableEq

/-- `signOut` of AuthContext.tsx lines 636-656: the backend call runs inside
the try block; when it returns (with or without an error object) the clears of
user, profile, session and the cache run; when it throws, control jumps to the
catch branch, which only logs, skipping the clears. -/
def signOut (st : CacheState) (r : SignOutResult) : CacheState :=
  match r with
  | SignOutResult.ok =>
    { st with user := none, profile := none, session := none, cache := [] }
  | SignOutResult.err _ =>
    { st with user := none, profile := none, session := none, cache := [] }
  | SignOutResult.thrown => st

/-- The two required connection parameters, `VITE_SUPABASE_URL` and
`VITE_SUPABASE_ANON_KEY`; `none` models an unset variable. -/
structure Env where
  supabaseUrl : Option String
  supabaseAnonKey : Option String
deriving Repr, DecidableEq

/-- JavaScript falsiness of an env string: undefined or empty. -/
def falsyStr (s : Option String) : Bool :=
  match s with
  | none => true
  | some v => v.isEmpty

/-- Message of the missing-variables branch of `checkEnvironmentVariables`
(AuthContext.tsx line 50). -/
def configMissingMsg : String :=
  "Configuration Error: Supabase environment variables are missing. Please check your deployment configuration."

/-- Message of the placeholder branch of `checkEnvironmentVariables`
(AuthContext.tsx line 57). -/
def configInvalidMsg : String :=
  "Configuration Error: Supabase environment variables are invalid. Please check your deployment configuration."

/-- `checkEnvironmentVariables` of AuthContext.tsx lines 44-63: missing or
placeholder-looking (`includes('undefined')`) values set a configuration error
with `loading := false` and return false; otherwise the state is untouched. -/
def checkEnvironmentVariables (env : Env) (st : AuthState) : Bool × AuthState :=
  if falsyStr env.supabaseUrl || falsyStr env.supabaseAnonKey then
    (false, { st with error := some configMissingMsg, loading := false })
  else if strIncludes "undefined" (env.supabaseUrl.getD "") ||
      strIncludes "undefined" (env.supabaseAnonKey.getD "") then
    (false, { st with error := some configInvalidMsg, loading := false })
  else
    (true, st)

/-- Outcome of the backend `supabase.auth.signInWithPassword` call: a data
object whose `user` and `session` fields may each be null, an error object,
or a thrown exception. -/
inductive SignInBackend where
  | ok (user : Option User) (session : Option Session)
  | err (msg : String)
  | thrown (msg : String)
deriving Repr, DecidableEq

/-- `signIn` of AuthContext.tsx lines 218-256: clears `error`, validates
configuration (returning a configuration error), then maps every backend
outcome — error object, missing user or session, thrown exception — to a
returned result, and success to a result with a null error.  The first
component is the returned `{ error }`; the second is the updated state
(network-classified failures also set the global `error`). -/
def signIn (env : Env) (st : AuthState) (r : SignInBackend) : Option String × AuthState :=
  let st1 := { st with error := none }
  let chk := checkEnvironmentVariables env st1
  if !chk.1 then
    (some "Configuration error: Missing environment variables", chk.2)
  else
    match r with
    | SignInBackend.ok u s =>
      match u, s with
      | some _, some _ => (none, st1)
      | _, _ => (some "Authentication failed", st1)
    | SignInBackend.err msg =>
      (some msg,
        if isNetworkMsg msg then
          { st1 with error := some "Network Error: Unable to connect to authentication service. Please check your internet connection and try again." }
        else st1)
    | SignInBackend.thrown msg =>
      (some msg,
        if isNetworkMsg msg then
          { st1 with error := some "Network Error: Unable to connect to authentication service. Please check your internet connection and try again." }
        else st1)

/-- Outcome of `supabase.auth.getSession()`: a data object whose session may
be null, an error object, or a thrown exception. -/
inductive SessionFetch where
  | ok (session : Option Session)
  | err (msg : String)
  | thrown (msg : String)
deriving Repr, DecidableEq

/-- Which of the two racing tasks of the Bootstrapper resolves first: the
session fetch, or the 10-second timeout guard. -/
inductive InitRace where
  | fetchFirst
  | timeoutFirst
deriving Repr, DecidableEq

/-- Timeout message set by the guard (AuthContext.tsx line 115). -/
def timeoutMsg : String :=
  "Connection Timeout: Unable to connect to authentication service. Please try again."

/-- Network message used for session and sign-in failures (AuthContext.tsx
lines 129, 159, 236). -/
def netAuthMsg : String :=
  "Network Error: Unable to connect to authentication service. Please check your internet connection and try again."

/-- Error classification of the `getSession` error branch (AuthContext.tsx
lines 128-132). -/
def classifySessionErr (msg : String) : String :=
  if isNetworkMsg msg then netAuthMsg else "Authentication Error: " ++ msg

/-- Error classification of the catch branch of `initializeAuth`
(AuthContext.tsx lines 158-162). -/
def classifyInitCatch (msg : String) : String :=
  if isNetworkMsg msg then netAuthMsg
  else "Authentication Error: An unexpected error occurred. Please try again."

/-- Embeds `initializeAuth` of AuthContext.tsx lines 101-175, with the store
mounted throughout.  Returns the sequence of states after each mutation block,
paired with the list of backend calls attempted.  The flow: clear `error`;
validate configuration (stopping before any backend call on failure); arm the
timeout guard and await `getSession` — when the guard fires first it writes
the timeout error with `loading := false`, and the late fetch result is then
still processed, since the code only consults the `mounted` flag; finally
`setLoading(false)` runs on every path. -/
def initAuth (env : Env) (race : InitRace) (fetch : SessionFetch)
    (lookup : LookupResult) (st0 : AuthState) : List AuthState × List String :=
  let s1 := { st0 with error := none }
  let chk := checkEnvironmentVariables env s1
  if !chk.1 then
    ([s1, chk.2, { chk.2 with loading := false }], [])
  else
    let sT := match race with
      | InitRace.timeoutFirst => { s1 with error := some timeoutMsg, loading := false }
      | InitRace.fetchFirst => s1
    let pre := match race with
      | InitRace.timeoutFirst => [s1, sT]
      | InitRace.fetchFirst => [s1]
    match fetch with
    | SessionFetch.ok (some sess) =>
      let sA := { sT with session := some sess, user := some sess.user }
      let res := fetchUserProfileA sA lookup
      let sC := { res.2 with profile := res.1 }
      (pre ++ [sA, sC, { sC with loading := false }], ["getSession", "profiles.select"])
    | SessionFetch.ok none =>
      let sN := { sT with user := none, profile := none, session := none }
      (pre ++ [sN, { sN with loading := false }], ["getSession"])
    | SessionFetch.err msg =>
      let sE := { sT with error := some (classifySessionErr msg), user := none,
                          profile := none, session := none, loading := false }
      (pre ++ [sE, { sE with loading := false }], ["getSession"])
    | SessionFetch.thrown msg =>
      let sX := { sT with error := some (classifyInitCatch msg), user := none,
                          profile := none, session := none }
      (pre ++ [sX, { sX with loading := false }], ["getSession"])

/-- Number of `true → false` edges in a sequence of flags. -/
def countFalls : List Bool → Nat
  | a :: b :: rest => (if a && !b then 1 else 0) + countFalls (b :: rest)
  | _ => 0

/-- State of the standing auth-state subscription: the shared store plus the
in-flight profile fetches in start order, each recorded with the outcome its
resolution will deliver. -/
structure ListenerState where
  auth : AuthState
  pending : List LookupResult
deriving Repr, DecidableEq

/-- One event observed by the subscription: a notification (which runs the
synchronous prefix of `handleAuthStateChange` and, when a user is present,
starts a profile fetch that will resolve to `lookup`), or the completion of
the in-flight fetch at position `i`, which runs the continuation
`setProfile(userProfile)` guarded only by the `mounted` flag
(AuthContext.tsx lines 186-191). -/
inductive AuthEvent where
  | notify (s : Option Session) (lookup : LookupResult)
  | complete (i : Nat)
deriving Repr, DecidableEq

/-- Small-step semantics of overlapping `handleAuthStateChange` invocations
(AuthContext.tsx lines 177-201) under the cooperative scheduler: the handler
writes session, user and `error := null` synchronously, then suspends on the
profile fetch; any fetch completion writes `profile` (and the error side
effects of `fetchUserProfileA`) with no check that its user is still current. -/
def listenerStep (ls : ListenerState) (e : AuthEvent) : ListenerState :=
  match e with
  | AuthEvent.notify s lookup =>
    let st1 := { ls.auth with session := s, user := s.map (fun x => x.user),
                              error := none }
    match s with
    | some _ => { auth := st1, pending := ls.pending ++ [lookup] }
    | none => { auth := { st1 with profile := none }, pending := ls.pending }
  | AuthEvent.complete i =>
    match ls.pending.get? i with
    | some r =>
      let res := fetchUserProfileA ls.auth r
      { auth := { res.2 with profile := res.1 },
        pending := ls.pending.eraseIdx i }
    | none => ls

/-- Run a sequence of subscription events from a starting state. -/
def runListener (ls : ListenerState) (es : List AuthEvent) : ListenerState :=
  es.foldl listenerStep ls

/-- Final state of a startup run of `initAuth` from the initial store. -/
def initFinal (env : Env) (race : InitRace) (fetch : SessionFetch)
    (lookup : LookupResult) : AuthState :=
  ((initAuth env race fetch lookup initialAuthState).1).getLastD initialAuthState

/-- Full state trace of a startup run, initial store included. -/
def initTrace (env : Env) (race : InitRace) (fetch : SessionFetch)
    (lookup : LookupResult) : List AuthState :=
  initialAuthState :: (initAuth env race fetch lookup initialAuthState).1

/-- Backend calls attempted by a startup run. -/
def initCalls (env : Env) (race : InitRace) (fetch : SessionFetch)
    (lookup : LookupResult) : List String :=
  (initAuth env race fetch lookup initialAuthState).2

/-- The render outcomes of `ProtectedRoute` (src/unnamed/part_002). -/
inductive RouteResult where
  | errorView
  | loadingView
  | redirectLogin
  | profileMissing
  | redirectDashboard
  | redirectAdmin
  | content
deriving Repr, DecidableEq

/-- `ProtectedRoute` of src/unnamed/part_002 lines 12-107: the check chain is
error, then loading, then user, then profile, then the two role checks. -/
def ProtectedRoute (error : Option String) (loading : Bool)
    (user : Option User) (profile : Option Profile)
    (requireAdmin requireStudent : Bool) : RouteResult :=
  match error with
  | some _ => RouteResult.errorView
  | none =>
    if loading then RouteResult.loadingView
    else
      match user with
      | none => RouteResult.redirectLogin
      | some _ =>
        match profile with
        | none => RouteResult.profileMissing
        | some p =>
          if requireAdmin && !(p.role == "admin") then RouteResult.redirectDashboard
          else if requireStudent && !(p.role == "student") then RouteResult.redirectAdmin
          else RouteResult.content

end Upsc

namespace Upsc

/-- C10: `isAdmin` holds exactly when a profile is present with role "admin",
`isStudent` exactly when one is present with role "student"; the two flags are
never both true, and both are false when the profile is absent. -/
theorem C10_role_flags (profile : Option Profile) :
    (isAdmin profile = true ↔ ∃ p, profile = some p ∧ p.role = "admin") ∧
    (isStudent profile = true ↔ ∃ p, profile = some p ∧ p.role = "student") ∧
    ¬(isAdmin profile = true ∧ isStudent profile = true) ∧
    (profile = none → isAdmin profile = false ∧ isStudent profile = false) := by
  cases profile with
  | none => simp [isAdmin, isStudent]
  | some p =>
    simp [isAdmin, isStudent]
    intro h h'
    rw [h] at h'
    exact absurd h' (by decide)

/-- C10 witness: an admin profile turns on `isAdmin` alone. -/
theorem C10_role_flags_witness :
    (isAdmin (some ⟨"u1", "a@b.c", "A", "admin"⟩) = true ↔
      ∃ p, (some ⟨"u1", "a@b.c", "A", "admin"⟩ : Option Profile) = some p ∧ p.role = "admin") ∧
    ¬(isAdmin (some ⟨"u1", "a@b.c", "A", "admin"⟩) = true ∧
      isStudent (some ⟨"u1", "a@b.c", "A", "admin"⟩) = true) :=
  ⟨(C10_role_flags (some ⟨"u1", "a@b.c", "A", "admin"⟩)).1,
   (C10_role_flags (some ⟨"u1", "a@b.c", "A", "admin"⟩)).2.2.1⟩

/-- C5: the gate renders gated content exactly when error is null, loading is
false, a user and a profile are present, and each required role matches; and
the checks fire in order: a non-null error always yields the error view, and
with no error, loading always yields the loading view — so role-dependent
content never renders while loading or erroring. -/
theorem C5_route_gate (error : Option String) (loading : Bool)
    (user : Option User) (profile : Option Profile) (ra rs : Bool) :
    (ProtectedRoute error loading user profile ra rs = RouteResult.content ↔
      error = none ∧ loading = false ∧ user ≠ none ∧
      ∃ p, profile = some p ∧ (ra = true → p.role = "admin") ∧
        (rs = true → p.role = "student")) ∧
    (error ≠ none → ProtectedRoute error loading user profile ra rs = RouteResult.errorView) ∧
    (error = none → loading = true →
      ProtectedRoute error loading user profile ra rs = RouteResult.loadingView) ∧
    (error = none → loading = false → user = none →
      ProtectedRoute error loading user profile ra rs = RouteResult.redirectLogin) ∧
    (error = none → loading = false → user ≠ none → profile = none →
      ProtectedRoute error loading user profile ra rs = RouteResult.profileMissing) := by
  cases error with
  | some e => simp [ProtectedRoute]
  | none =>
    cases loading with
    | true => simp [ProtectedRoute]
    | false =>
      cases user with
      | none => simp [ProtectedRoute]
      | some u =>
        cases profile with
        | none => simp [ProtectedRoute]
        | some p =>
          by_cases ha : p.role = "admin" <;> by_cases hs : p.role = "student"
          · exact absurd (ha.symm.trans hs) (by decide)
          all_goals cases ra <;> cases rs <;> simp [ProtectedRoute, ha, hs]

/-- C5 witness: with no error, not loading, a user, and an admin profile, the
gate with `requireAdmin` renders the content. -/
theorem C5_route_gate_witness :
    ProtectedRoute none false (some ⟨"u1"⟩)
      (some ⟨"u1", "a@b.c", "A", "admin"⟩) true false = RouteResult.content :=
  (C5_route_gate none false (some ⟨"u1"⟩)
      (some ⟨"u1", "a@b.c", "A", "admin"⟩) true false).1.mpr
    ⟨rfl, rfl, by decide, ⟨"u1", "a@b.c", "A", "admin"⟩, rfl,
      fun _ => rfl, fun h => by cases h⟩

/-- C1: evaluation at the failing schedule.  A notification for user B starts
a profile fetch, a notification for user A supersedes it and starts its own
fetch; A's fetch completes first, B's completes last.  Once all in-flight
fetches have completed, the store holds user A but B's profile: the claimed
race resolution (final profile matches A, never B) fails on the code, which
guards the continuation only with the `mounted` flag. -/
theorem C1_stale_fetch_eval :
    (runListener ⟨initialAuthState, []⟩
      [AuthEvent.notify (some ⟨⟨"B"⟩⟩)
         (LookupResult.found ⟨"B", "b@x.y", "B", "admin"⟩),
       AuthEvent.notify (some ⟨⟨"A"⟩⟩)
         (LookupResult.found ⟨"A", "a@x.y", "A", "student"⟩),
       AuthEvent.complete 1,
       AuthEvent.complete 0]).auth.user = some ⟨"A"⟩ ∧
    (runListener ⟨initialAuthState, []⟩
      [AuthEvent.notify (some ⟨⟨"B"⟩⟩)
         (LookupResult.found ⟨"B", "b@x.y", "B", "admin"⟩),
       AuthEvent.notify (some ⟨⟨"A"⟩⟩)
         (LookupResult.found ⟨"A", "a@x.y", "A", "student"⟩),
       AuthEvent.complete 1,
       AuthEvent.complete 0]).auth.profile = some ⟨"B", "b@x.y", "B", "admin"⟩ ∧
    (runListener ⟨initialAuthState, []⟩
      [AuthEvent.notify (some ⟨⟨"B"⟩⟩)
         (LookupResult.found ⟨"B", "b@x.y", "B", "admin"⟩),
       AuthEvent.notify (some ⟨⟨"A"⟩⟩)
         (LookupResult.found ⟨"A", "a@x.y", "A", "student"⟩),
       AuthEvent.complete 1,
       AuthEvent.complete 0]).pending = [] :=
  ⟨rfl, rfl, rfl⟩

/-- C2: on every startup sequence — any configuration, any race outcome
between the timeout guard and the session fetch, any session-fetch and
profile-lookup outcome — the run ends with `loading = false`, and `loading`
falls from true to false exactly once along the trace. -/
theorem C2_loading_once (env : Env) (race : InitRace) (fetch : SessionFetch)
    (lookup : LookupResult) :
    (initFinal env race fetch lookup).loading = false ∧
    countFalls ((initTrace env race fetch lookup).map (fun s => s.loading)) = 1 := by
  rcases fetch with sopt | msg | msg <;> try rcases sopt with _ | sess
  all_goals
    cases race <;> cases lookup <;>
      simp only [initFinal, initTrace, initAuth, checkEnvironmentVariables,
        initialAuthState, fetchUserProfileA] <;>
      split_ifs <;>
      simp [countFalls, List.getLastD]

/-- C3: evaluation at the failing schedule.  The 10-second guard elapses
first (error becomes the timeout message, loading false); the session fetch
then resolves with a session for user u1, and the code — consulting only the
`mounted` flag — still writes session, user and profile into the store,
contradicting the claim that the late result is discarded. -/
theorem C3_late_result_applied :
    (initFinal ⟨some "https://example.supabase.co", some "anon-key"⟩
        InitRace.timeoutFirst (SessionFetch.ok (some ⟨⟨"u1"⟩⟩))
        (LookupResult.found ⟨"u1", "u1@x.y", "U", "student"⟩)).error = some timeoutMsg ∧
    (initFinal ⟨some "https://example.supabase.co", some "anon-key"⟩
        InitRace.timeoutFirst (SessionFetch.ok (some ⟨⟨"u1"⟩⟩))
        (LookupResult.found ⟨"u1", "u1@x.y", "U", "student"⟩)).loading = false ∧
    (initFinal ⟨some "https://example.supabase.co", some "anon-key"⟩
        InitRace.timeoutFirst (SessionFetch.ok (some ⟨⟨"u1"⟩⟩))
        (LookupResult.found ⟨"u1", "u1@x.y", "U", "student"⟩)).user = some ⟨"u1"⟩ ∧
    (initFinal ⟨some "https://example.supabase.co", some "anon-key"⟩
        InitRace.timeoutFirst (SessionFetch.ok (some ⟨⟨"u1"⟩⟩))
        (LookupResult.found ⟨"u1", "u1@x.y", "U", "student"⟩)).session = some ⟨⟨"u1"⟩⟩ ∧
    (initFinal ⟨some "https://example.supabase.co", some "anon-key"⟩
        InitRace.timeoutFirst (SessionFetch.ok (some ⟨⟨"u1"⟩⟩))
        (LookupResult.found ⟨"u1", "u1@x.y", "U", "student"⟩)).profile =
      some ⟨"u1", "u1@x.y", "U", "student"⟩ :=
  ⟨rfl, rfl, rfl, rfl, rfl⟩

/-- C4: evaluation at the failing input.  When the backend `signOut` call
throws, control jumps to the catch branch, which only logs: user, profile,
session and the profile cache all keep their previous values, contradicting
the claim that sign-out always leaves them cleared. -/
theorem C4_signOut_thrown_eval :
    (signOut ⟨some ⟨"u1"⟩, some ⟨"u1", "a@b.c", "A", "admin"⟩, some ⟨⟨"u1"⟩⟩,
        [("u1", ⟨"u1", "a@b.c", "A", "admin"⟩)]⟩ SignOutResult.thrown).user = some ⟨"u1"⟩ ∧
    (signOut ⟨some ⟨"u1"⟩, some ⟨"u1", "a@b.c", "A", "admin"⟩, some ⟨⟨"u1"⟩⟩,
        [("u1", ⟨"u1", "a@b.c", "A", "admin"⟩)]⟩ SignOutResult.thrown).profile =
      some ⟨"u1", "a@b.c", "A", "admin"⟩ ∧
    (signOut ⟨some ⟨"u1"⟩, some ⟨"u1", "a@b.c", "A", "admin"⟩, some ⟨⟨"u1"⟩⟩,
        [("u1", ⟨"u1", "a@b.c", "A", "admin"⟩)]⟩ SignOutResult.thrown).session =
      some ⟨⟨"u1"⟩⟩ ∧
    (signOut ⟨some ⟨"u1"⟩, some ⟨"u1", "a@b.c", "A", "admin"⟩, some ⟨⟨"u1"⟩⟩,
        [("u1", ⟨"u1", "a@b.c", "A", "admin"⟩)]⟩ SignOutResult.thrown).cache =
      [("u1", ⟨"u1", "a@b.c", "A", "admin"⟩)] :=
  ⟨rfl, rfl, rfl, rfl⟩

/-- C6 counterexample: a network-classified backend error during the profile
resolution triggered by an auth-state-change notification leaves profile null
but sets the global error to the database network message, contradicting the
claim that the error field is not set. -/
theorem C6_counterexample :
    (handleAuthStateChange initialAuthState (some ⟨⟨"B"⟩⟩)
        (LookupResult.err "network down")).profile = none ∧
    (handleAuthStateChange initialAuthState (some ⟨⟨"B"⟩⟩)
        (LookupResult.err "network down")).error = some netDbMsg :=
  ⟨rfl, rfl⟩

/-- C6 amended: when the profile resolution triggered by a notification
fails, the store sets profile to null; the global error stays null exactly
when the backend error message is not network-classified, while
network-classified errors set the database network message and thrown
exceptions set the profile network message. -/
theorem C6_profile_failure (st : AuthState) (sess : Session) (msg : String) :
    (handleAuthStateChange st (some sess) (LookupResult.err msg)).profile = none ∧
    ((handleAuthStateChange st (some sess) (LookupResult.err msg)).error = none ↔
      isNetworkMsg msg = false) ∧
    (handleAuthStateChange st (some sess) LookupResult.thrown).profile = none ∧
    (handleAuthStateChange st (some sess) LookupResult.thrown).error =
      some netProfileMsg := by
  cases hn : isNetworkMsg msg <;>
    simp [handleAuthStateChange, fetchUserProfileA, hn, netDbMsg, netProfileMsg]

/-- C6 amended witness: a not-found error (code PGRST116, not
network-classified) leaves both profile and error null. -/
theorem C6_profile_failure_witness :
    (handleAuthStateChange initialAuthState (some ⟨⟨"u2"⟩⟩)
        (LookupResult.err "PGRST116")).profile = none ∧
    ((handleAuthStateChange initialAuthState (some ⟨⟨"u2"⟩⟩)
        (LookupResult.err "PGRST116")).error = none ↔
      isNetworkMsg "PGRST116" = false) :=
  ⟨(C6_profile_failure initialAuthState ⟨⟨"u2"⟩⟩ "PGRST116").1,
   (C6_profile_failure initialAuthState ⟨⟨"u2"⟩⟩ "PGRST116").2.1⟩

/-- C7: the cached profile resolver returns a cache hit with no backend call;
on a miss it performs the point lookup and, on success, inserts the row into
the cache and returns it; a not-found (or any error) returns null without
touching the cache. -/
theorem C7_profile_resolver (cache : List (String × Profile)) (userId : String)
    (r : LookupResult) :
    (∀ p, cache.lookup userId = some p →
      fetchUserProfileCached cache userId r = (some p, cache, false)) ∧
    (cache.lookup userId = none → ∀ q, r = LookupResult.found q →
      fetchUserProfileCached cache userId r = (some q, mapSet cache userId q, true)) ∧
    (cache.lookup userId = none → ∀ msg, r = LookupResult.err msg →
      fetchUserProfileCached cache userId r = (none, cache, true)) := by
  cases h : cache.lookup userId <;> cases r <;>
    simp [fetchUserProfileCached, h]

/-- C7 witness: a hit serves the cached row without a backend call; a miss
followed by success caches the row; a miss followed by not-found caches
nothing. -/
theorem C7_profile_resolver_witness :
    fetchUserProfileCached [("u1", ⟨"u1", "a@b.c", "A", "admin"⟩)] "u1"
        (LookupResult.err "x") =
      (some ⟨"u1", "a@b.c", "A", "admin"⟩,
        [("u1", ⟨"u1", "a@b.c", "A", "admin"⟩)], false) ∧
    fetchUserProfileCached [] "u1" (LookupResult.found ⟨"u1", "a@b.c", "A", "admin"⟩) =
      (some ⟨"u1", "a@b.c", "A", "admin"⟩,
        mapSet [] "u1" ⟨"u1", "a@b.c", "A", "admin"⟩, true) ∧
    fetchUserProfileCached [] "u1" (LookupResult.err "PGRST116") =
      (none, [], true) :=
  ⟨(C7_profile_resolver [("u1", ⟨"u1", "a@b.c", "A", "admin"⟩)] "u1"
      (LookupResult.err "x")).1 ⟨"u1", "a@b.c", "A", "admin"⟩ rfl,
   (C7_profile_resolver [] "u1"
      (LookupResult.found ⟨"u1", "a@b.c", "A", "admin"⟩)).2.1 rfl
      ⟨"u1", "a@b.c", "A", "admin"⟩ rfl,
   (C7_profile_resolver [] "u1" (LookupResult.err "PGRST116")).2.2 rfl
      "PGRST116" rfl⟩

/-- C8: `signIn` never throws past its boundary — every backend outcome,
including a thrown exception, maps to a returned result object — and the
returned error is null exactly when configuration passes and the backend
returned both a user and a session. -/
theorem C8_signIn_total (env : Env) (st : AuthState) (r : SignInBackend) :
    (signIn env st r).1 = none ↔
      (checkEnvironmentVariables env { st with error := none }).1 = true ∧
      ∃ u s, r = SignInBackend.ok (some u) (some s) := by
  cases hc : (checkEnvironmentVariables env { st with error := none }).1 <;>
    cases r <;>
    simp [signIn, hc]
  case ok u s =>
    cases u <;> cases s <;> simp

/-- C8 witness: with valid configuration and a backend success carrying both
user and session, the returned error is null. -/
theorem C8_signIn_total_witness :
    (signIn ⟨some "https://example.supabase.co", some "anon-key"⟩
      initialAuthState (SignInBackend.ok (some ⟨"u1"⟩) (some ⟨⟨"u1"⟩⟩))).1 = none :=
  (C8_signIn_total ⟨some "https://example.supabase.co", some "anon-key"⟩
      initialAuthState (SignInBackend.ok (some ⟨"u1"⟩) (some ⟨⟨"u1"⟩⟩))).mpr
    ⟨rfl, ⟨"u1"⟩, ⟨⟨"u1"⟩⟩, rfl⟩

/-- C9: when either connection parameter is missing, empty, or
placeholder-looking, startup ends with a configuration error message,
`loading = false`, `user = null`, and no backend call is attempted. -/
theorem C9_config_error (env : Env) (race : InitRace) (fetch : SessionFetch)
    (lookup : LookupResult)
    (h : (checkEnvironmentVariables env { initialAuthState with error := none }).1 = false) :
    ((initFinal env race fetch lookup).error = some configMissingMsg ∨
      (initFinal env race fetch lookup).error = some configInvalidMsg) ∧
    (initFinal env race fetch lookup).loading = false ∧
    (initFinal env race fetch lookup).user = none ∧
    initCalls env race fetch lookup = [] := by
  simp only [initFinal, initCalls, initAuth, initialAuthState] at *
  simp only [checkEnvironmentVariables] at h ⊢
  split_ifs at h ⊢ <;> simp_all

/-- C9 witness: with the endpoint URL unset, startup reports the
missing-variables configuration error, leaves loading false and user null,
and attempts no backend call. -/
theorem C9_config_error_witness :
    (((initFinal ⟨none, some "anon-key"⟩ InitRace.fetchFirst
        (SessionFetch.ok none) LookupResult.thrown).error = some configMissingMsg ∨
      (initFinal ⟨none, some "anon-key"⟩ InitRace.fetchFirst
        (SessionFetch.ok none) LookupResult.thrown).error = some configInvalidMsg) ∧
    (initFinal ⟨none, some "anon-key"⟩ InitRace.fetchFirst
      (SessionFetch.ok none) LookupResult.thrown).loading = false ∧
    (initFinal ⟨none, some "anon-key"⟩ InitRace.fetchFirst
      (SessionFetch.ok none) LookupResult.thrown).user = none ∧
    initCalls ⟨none, some "anon-key"⟩ InitRace.fetchFirst
      (SessionFetch.ok none) LookupResult.thrown = []) :=
  C9_config_error ⟨none, some "anon-key"⟩ InitRace.fetchFirst
    (SessionFetch.ok none) LookupResult.thrown rfl

end Upsc
